import Mathlib

/-!
Verification development for the travia-agent orchestration engine.

The definitions below are a shallow embedding of the Python source under
`src/`: the intent extraction post-processing (`src/agents/nodes.py`,
`intent_node`), the flight/hotel orchestrators (`flight_tool`,
`hotel_tool`), the web-search fallback cascade
(`web_search_fallback_node`), the synthesizer (`synthesis_node`), the
two routers (`src/agents/routers.py`) and the graph wiring
(`src/agents/graph.py`).  External collaborators (the LLM, the Amadeus
provider, the web-search backends, the airport-code resolver) are
modelled as explicit parameters gathered in the `Providers` record.
-/

namespace Travia

/-- Python truthiness of an optional string value: `None` and the empty
string are falsy, every other string is truthy (mirrors
`if intent_data.get("origin")`-style checks in `nodes.py`). -/
def pyTruthy : Option String → Bool
  | none => false
  | some s => s ≠ ""

/-- Python truthiness of an optional list (e.g. `if state.flights:` in
`synthesis_node`): `None` and the empty list are falsy. -/
def pyTruthyL {α : Type} : Option (List α) → Bool
  | none => false
  | some l => ! l.isEmpty

/-- Python string slicing `s[:n]`: the first `n` characters. -/
def pySlice (s : String) (n : Nat) : String :=
  ⟨s.toList.take n⟩

/-- Truncation of a rational towards zero, the behaviour of the Python
`int()` conversion applied to a numeric value (used for the INR price
conversions in `synthesis_node`). -/
def pyInt (q : ℚ) : ℤ :=
  q.num.tdiv (q.den : ℤ)

/-- The fixed EUR to INR conversion rate from `src/config/settings.py`
(`EUR_TO_INR = 107.19`), modelled as the exact rational. -/
def eurToInr : ℚ := (10719 : ℚ) / 100

/-- A Python `datetime.date`: proleptic Gregorian calendar date. -/
structure PyDate where
  year : Nat
  month : Nat
  day : Nat
deriving Repr, DecidableEq

/-- Python `date` comparison `a < b` (lexicographic on year, month, day),
as used by the past-date guard in `intent_node`. -/
def dateLt (a b : PyDate) : Bool :=
  a.year < b.year ∨
    (a.year = b.year ∧ (a.month < b.month ∨ (a.month = b.month ∧ a.day < b.day)))

/-- Gregorian leap-year rule, as implemented by the Python `datetime`
module which `datetime.fromisoformat` validates against. -/
def isLeapYear (y : Nat) : Bool :=
  y % 4 = 0 ∧ (y % 100 ≠ 0 ∨ y % 400 = 0)

/-- Number of days in a month of a given year (Python `calendar` rule,
used by `datetime.fromisoformat` to validate the day component). -/
def daysInMonth (y m : Nat) : Nat :=
  if m = 2 then (if isLeapYear y then 29 else 28)
  else if m = 4 ∨ m = 6 ∨ m = 9 ∨ m = 11 then 30
  else 31

/-- Numeric value of a decimal digit character. -/
def digitVal (c : Char) : Nat := c.toNat - 48

/-- Whether a character is a decimal digit. -/
def isDig (c : Char) : Bool := 48 ≤ c.toNat ∧ c.toNat ≤ 57

/-- Modelling of `datetime.fromisoformat(...).date()` restricted to
calendar-date strings of the shape `YYYY-MM-DD` — the shape the
extraction prompt mandates for all dates in this system.  Returns
`none` exactly when the Python call raises `ValueError`: wrong shape,
non-digit components, year 0, month outside 1..12 or day outside the
valid range for the month. -/
def parseIsoDate (s : String) : Option PyDate :=
  match s.toList with
  | [y1, y2, y3, y4, h1, m1, m2, h2, d1, d2] =>
    if h1 = '-' ∧ h2 = '-' ∧
        isDig y1 ∧ isDig y2 ∧ isDig y3 ∧ isDig y4 ∧
        isDig m1 ∧ isDig m2 ∧ isDig d1 ∧ isDig d2 then
      let y := digitVal y1 * 1000 + digitVal y2 * 100 + digitVal y3 * 10 + digitVal y4
      let m := digitVal m1 * 10 + digitVal m2
      let d := digitVal d1 * 10 + digitVal d2
      if 1 ≤ y ∧ 1 ≤ m ∧ m ≤ 12 ∧ 1 ≤ d ∧ d ≤ daysInMonth y m then
        some ⟨y, m, d⟩
      else none
    else none
  | _ => none

/-- The loosely-typed intent mapping threaded through `intent_node`
(`intent_data` in `nodes.py`): the fields of the `TravelIntent` schema
(`src/models/schemas.py`), with `intent` kept as a raw string because
the LLM collaborator may return a plain dict.  `none` models both an
absent key and an explicit `None` value (they are indistinguishable to
the `.get` accesses the code performs). -/
structure IntentData where
  intent : String
  origin : Option String := none
  destination : Option String := none
  check_in : Option String := none
  check_out : Option String := none
  travelers : Int := 1
  reasoning : String := ""
deriving Repr, DecidableEq

/-- Comma-join, Python `", ".join(missing)`. -/
def joinComma (l : List String) : String :=
  String.intercalate ", " l

/-- The list of missing-item messages collected by the strict
flight-search validation in `intent_node` (lines 79..97), in source
order: origin, destination, the origin-equals-destination check, then
the departure date. -/
def flightMissing (d : IntentData) : List String :=
  (if ¬ pyTruthy d.origin then ["departure city/airport"] else []) ++
  (if ¬ pyTruthy d.destination then ["arrival city/airport"] else []) ++
  (if pyTruthy d.origin ∧ pyTruthy d.destination ∧ d.origin = d.destination then
    ["arrival city/airport (cannot be same as departure)"] else []) ++
  (if ¬ pyTruthy d.check_in then ["departure/travel date"] else [])

/-- The missing-item messages collected by the hotel-search validation
in `intent_node` (lines 107..116), in source order. -/
def hotelMissing (d : IntentData) : List String :=
  (if ¬ pyTruthy d.destination then ["destination city"] else []) ++
  (if ¬ pyTruthy d.check_in then ["check-in date"] else []) ++
  (if ¬ pyTruthy d.check_out then ["check-out date"] else [])

/-- The missing-item messages collected by the combined-search
validation in `intent_node` (lines 125..137), in source order. -/
def bothMissing (d : IntentData) : List String :=
  (if ¬ pyTruthy d.origin then ["departure city/airport"] else []) ++
  (if ¬ pyTruthy d.destination then ["destination city"] else []) ++
  (if ¬ pyTruthy d.check_in then ["check-in/departure date"] else []) ++
  (if ¬ pyTruthy d.check_out then ["check-out date"] else [])

/-- The shared downgrade step of the three completeness-check blocks
of `intent_node` (`if missing: intent = clarify; reasoning = "Missing:
..."`): rewrite to clarify exactly when the given missing-item list is
non-empty. -/
def checkOf (missing : IntentData → List String) (d : IntentData) : IntentData :=
  if missing d ≠ [] then
    { d with intent := "clarify", reasoning := "Missing: " ++ joinComma (missing d) }
  else d

/-- Downgrade to clarify when the flight-search validation collected
any missing item (`intent_node` lines 100..102). -/
def applyFlightCheck : IntentData → IntentData :=
  checkOf flightMissing

/-- Downgrade to clarify when the hotel-search validation collected any
missing item (`intent_node` lines 118..120). -/
def applyHotelCheck : IntentData → IntentData :=
  checkOf hotelMissing

/-- Downgrade to clarify when the combined-search validation collected
any missing item (`intent_node` lines 139..141). -/
def applyBothCheck : IntentData → IntentData :=
  checkOf bothMissing

/-- The hotel origin/destination swap fix (`intent_node` lines 72..75):
for a hotel search with `origin` set but `destination` unset, move the
value across and null `origin`. -/
def hotelSwapFix (orig : String) (d : IntentData) : IntentData :=
  if orig = "hotel_search" ∧ pyTruthy d.origin ∧ ¬ pyTruthy d.destination then
    { d with destination := d.origin, origin := none }
  else d

/-- The unconditional past-date guard (`intent_node` lines 144..153):
when `check_in` is truthy, parse it as an ISO date; a parse failure or
a date strictly before today forces clarify with the corresponding
reasoning message. -/
def dateGuard (today : PyDate) (d : IntentData) : IntentData :=
  if pyTruthy d.check_in then
    match parseIsoDate (d.check_in.getD "") with
    | some ci =>
      if dateLt ci today then
        { d with intent := "clarify",
                 reasoning := "Check-in/departure date cannot be in the past" }
      else d
    | none =>
      { d with intent := "clarify",
               reasoning := "Invalid date format. Please provide a valid date." }
  else d

/-- Whether the past-date guard rewrites the intent (used to state when
the guard leaves the completeness-check reasoning intact). -/
def dateGuardFires (today : PyDate) (d : IntentData) : Bool :=
  pyTruthy d.check_in &&
    (match parseIsoDate (d.check_in.getD "") with
     | some ci => dateLt ci today
     | none => true)

/-- The three completeness-check blocks of `intent_node` (lines
77..142), each dispatched on the original intent captured at line
69. -/
def checksDispatch (orig : String) (d1 : IntentData) : IntentData :=
  let d2 := if orig = "flight_search" then applyFlightCheck d1 else d1
  let d3 := if orig = "hotel_search" then applyHotelCheck d2 else d2
  if orig = "both" then applyBothCheck d3 else d3

/-- Everything `intent_node` does before the past-date guard: the
hotel swap fix followed by the dispatched completeness checks, both
keyed on the original intent. -/
def preGuard (d0 : IntentData) : IntentData :=
  checksDispatch d0.intent (hotelSwapFix d0.intent d0)

/-- The complete deterministic post-processing of `intent_node`
(lines 69..153): capture the original intent, apply the hotel swap fix,
the three per-intent completeness checks (each dispatched on the
original intent), then the unconditional past-date guard. -/
def intentPostProcess (today : PyDate) (d0 : IntentData) : IntentData :=
  dateGuard today (preGuard d0)

/-- Zero-padded two-digit rendering of a component (strftime `%d`,
`%m`, `%I`, `%M`). -/
def pad2 (n : Nat) : String :=
  if n < 10 then "0" ++ toString n else toString n

/-- Zero-padded four-digit rendering of a year (strftime `%Y`). -/
def pad4 (n : Nat) : String :=
  if n < 10 then "000" ++ toString n
  else if n < 100 then "00" ++ toString n
  else if n < 1000 then "0" ++ toString n
  else toString n

/-- Full English month names (strftime `%B`), 1-indexed. -/
def monthName (m : Nat) : String :=
  (["January", "February", "March", "April", "May", "June", "July",
    "August", "September", "October", "November", "December"]).getD (m - 1) ""

/-- Abbreviated English month names (strftime `%b`), 1-indexed. -/
def monthAbbrev (m : Nat) : String :=
  (["Jan", "Feb", "Mar", "Apr", "May", "Jun", "Jul",
    "Aug", "Sep", "Oct", "Nov", "Dec"]).getD (m - 1) ""

/-- Python `date.strftime("%B %d, %Y")`, the long-form date used in the
web-search fallback query of `flight_tool`. -/
def formatLongDate (d : PyDate) : String :=
  monthName d.month ++ " " ++ pad2 d.day ++ ", " ++ pad4 d.year

/-- A Python naive `datetime` (timezone already dropped, mirroring the
`dt.replace(tzinfo=None)` step in `synthesis_node`). -/
structure PyDateTime where
  year : Nat
  month : Nat
  day : Nat
  hour : Nat
  minute : Nat
deriving Repr, DecidableEq

/-- Python `datetime.strftime("%d %b %Y, %I:%M %p")`, the departure
time format used by `synthesis_node` for flight lines. -/
def formatFlightTime (t : PyDateTime) : String :=
  let h12 := if t.hour % 12 = 0 then 12 else t.hour % 12
  let ampm := if t.hour < 12 then "AM" else "PM"
  pad2 t.day ++ " " ++ monthAbbrev t.month ++ " " ++ pad4 t.year ++ ", " ++
    pad2 h12 ++ ":" ++ pad2 t.minute ++ " " ++ ampm

/-- The first segment of the first itinerary of an Amadeus flight
offer, the only part `synthesis_node` reads
(`f["itineraries"][0]["segments"][0]`); the provider schema guarantees
at least one itinerary with at least one segment, and the departure
timestamp is kept in parsed form since the provider emits ISO
timestamps. -/
structure FlightSegment where
  carrierCode : String
  number : String
  departureAt : PyDateTime
  departureIata : String
  arrivalIata : String
deriving Repr, DecidableEq

/-- An Amadeus flight offer as consumed by `synthesis_node`:
`priceTotal` models `float(f["price"]["total"])` and `priceCurrency`
models the accompanying `f["price"]["currency"]` field, which the
synthesizer never reads. -/
structure FlightOffer where
  segment : FlightSegment
  priceTotal : ℚ
  priceCurrency : String := "EUR"
deriving Repr, DecidableEq

/-- Address block of an Amadeus hotel record (`hotel["address"]`). -/
structure AddressBlock where
  cityName : Option String := none
deriving Repr, DecidableEq

/-- Distance block of an Amadeus hotel record (`hotel["distance"]`);
the value is kept as rendered text. -/
structure DistanceBlock where
  value : Option String := none
  unit : Option String := none
deriving Repr, DecidableEq

/-- A hotel record from the by-city lookup
(`amadeus_service.search_hotels_by_city`); `none` models an absent
key. -/
structure HotelBasic where
  hotelId : Option String := none
  name : Option String := none
  address : Option AddressBlock := none
  distance : Option DistanceBlock := none
deriving Repr, DecidableEq

/-- Price block of a hotel offer (`offer["price"]`). -/
structure PricePair where
  currency : Option String := none
  total : Option ℚ := none
  base : Option ℚ := none
deriving Repr, DecidableEq

/-- Estimated room type block (`room["typeEstimated"]`). -/
structure RoomTypeEst where
  category : Option String := none
  beds : Option Int := none
  bedType : Option String := none
deriving Repr, DecidableEq

/-- A text block (`{"text": ...}`) as used for room and cancellation
descriptions. -/
structure TextBlock where
  text : Option String := none
deriving Repr, DecidableEq

/-- Room block of a hotel offer (`offer["room"]`). -/
structure RoomInfo where
  typeEstimated : Option RoomTypeEst := none
  description : Option TextBlock := none
deriving Repr, DecidableEq

/-- Cancellation block (`policies["cancellation"]`); `cancelType`
models the JSON key named type, and the description is kept as a text
block per the provider schema (the non-dict branch of the source is
unreachable for schema-conforming payloads). -/
structure CancellationBlock where
  cancelType : Option String := none
  description : Option TextBlock := none
deriving Repr, DecidableEq

/-- Policies block of a hotel offer (`offer["policies"]`). -/
structure PoliciesBlock where
  paymentType : Option String := none
  cancellation : Option CancellationBlock := none
deriving Repr, DecidableEq

/-- One priced offer inside a hotel entry (`offers[0]` and friends). -/
structure HotelOfferEntry where
  price : Option PricePair := none
  room : Option RoomInfo := none
  checkInDate : Option String := none
  checkOutDate : Option String := none
  policies : Option PoliciesBlock := none
deriving Repr, DecidableEq

/-- An element of `state.hotels`: either an offer-search result from
`amadeus_service.search_hotel_offers` or a basic entry synthesized by
`hotel_tool` when no offers were found. -/
structure HotelEntry where
  hotel : Option HotelBasic := none
  available : Option Bool := none
  offers : List HotelOfferEntry := []
deriving Repr, DecidableEq

/-- The LangGraph pipeline state (`src/models/state.py`,
`AgentState`).  Conversation history entries are (role, content)
pairs. -/
structure AgentState where
  query : String := ""
  conversation_history : List (String × String) := []
  intent : Option IntentData := none
  flights : Option (List FlightOffer) := none
  hotels : Option (List HotelEntry) := none
  response : Option String := none
  use_web_search : Bool := false
  search_query : Option String := none
deriving Repr, DecidableEq

/-- Best-effort airport-code to city-name resolution
(`airport_cache.get_city_name` in `src/utils/cache.py`): the resolver
parameter models the cache/location-API lookup, and any failure falls
back to the raw IATA code. -/
def getCityName (cityOf : String → Option String) (code : String) : String :=
  (cityOf code).getD code

/-- One entry of the structured Amadeus error payload
(`error_dict["errors"][0]` with its `code` and `status` keys). -/
structure AmadeusErr where
  code : Option Int := none
  status : Option Int := none
deriving Repr, DecidableEq

/-- Outcome of a flight-provider call as observed by `flight_tool`:
success with offers, a `ResponseError` carrying a structured error
list and its string rendering, or a non-provider exception. -/
inductive FlightApiResult where
  | ok (flights : List FlightOffer)
  | err (errors : List AmadeusErr) (msg : String)
  | exc (msg : String)
deriving Repr, DecidableEq

/-- The synthesized web-search query armed by `flight_tool` on a
recognized outage (`nodes.py` lines 222..238): city names resolved
best-effort from the IATA codes and the date formatted long-form when
it parses as ISO, otherwise kept raw. -/
def flightFallbackQuery (cityOf : String → Option String) (i : IntentData) : String :=
  let origin_city :=
    if pyTruthy i.origin then getCityName cityOf (i.origin.getD "") else i.origin.getD ""
  let dest_city :=
    if pyTruthy i.destination then getCityName cityOf (i.destination.getD "") else i.destination.getD ""
  let date_str :=
    match parseIsoDate (i.check_in.getD "") with
    | some d => formatLongDate d
    | none => i.check_in.getD ""
  "flights from " ++ origin_city ++ " to " ++ dest_city ++ " on " ++ date_str ++ " price"

/-- The flight search orchestrator (`flight_tool` in `nodes.py`):
precondition checks for origin/destination/date, then the provider
call; a provider error whose first reported entry carries code 141 or
status 500 arms the web-search fallback, any other provider error (or
an empty/unparseable error payload) yields a plain error message, and
a non-provider exception yields a generic error message. -/
def flightTool (api : String → String → String → Int → FlightApiResult)
    (cityOf : String → Option String) (s : AgentState) : AgentState :=
  match s.intent with
  | none => { s with response := some "Internal error: missing intent" }
  | some i =>
    if ¬ pyTruthy i.origin then
      { s with flights := some [], response := some "Missing origin airport code" }
    else if ¬ pyTruthy i.destination then
      { s with flights := some [], response := some "Missing destination airport code" }
    else if ¬ pyTruthy i.check_in then
      { s with flights := some [], response := some "Missing departure date" }
    else
      match api (i.origin.getD "") (i.destination.getD "") (i.check_in.getD "") i.travelers with
      | .ok fl => { s with flights := some fl }
      | .err errors msg =>
        match errors with
        | e0 :: _ =>
          if e0.code = some 141 ∨ e0.status = some 500 then
            { s with flights := some [], response := none, use_web_search := true,
                     search_query := some (flightFallbackQuery cityOf i) }
          else
            { s with flights := some [], response := some ("Flight search error: " ++ msg) }
        | [] =>
          { s with flights := some [], response := some ("Flight search error: " ++ msg) }
      | .exc msg =>
        { s with flights := some [], response := some ("Unexpected flight error: " ++ msg) }

/-- Stage-1 router (`router` in `src/agents/routers.py`): pure function
of the extracted intent type to the next node name. -/
def router (s : AgentState) : String :=
  match s.intent with
  | none => "clarify"
  | some i =>
    if i.intent = "flight_search" then "flight_tool"
    else if i.intent = "hotel_search" then "hotel_tool"
    else if i.intent = "both" then "flight_tool"
    else if i.intent = "follow_up" then "synthesis"
    else "clarify"

/-- Stage-2 router (`flight_tool_router` in `src/agents/routers.py`):
the armed fallback flag wins unconditionally, then intent `both` goes
to the hotel step, anything else to synthesis. -/
def flightToolRouter (s : AgentState) : String :=
  if s.use_web_search then "web_search_fallback"
  else
    match s.intent with
    | none => "synthesis"
    | some i => if i.intent = "both" then "hotel_tool" else "synthesis"

/-- The nodes of the LangGraph graph built in `src/agents/graph.py`
(`terminal` models the END sentinel). -/
inductive Node where
  | intent
  | flight_tool
  | hotel_tool
  | clarify
  | synthesis
  | web_search_fallback
  | terminal
deriving Repr, DecidableEq

/-- Resolution of a router-returned node name to a node, as
`add_conditional_edges` does against the node names registered in
`create_agent`. -/
def nodeOfName (n : String) : Node :=
  if n = "flight_tool" then .flight_tool
  else if n = "hotel_tool" then .hotel_tool
  else if n = "clarify" then .clarify
  else if n = "synthesis" then .synthesis
  else if n = "web_search_fallback" then .web_search_fallback
  else .terminal

/-- The edge relation of the compiled graph (`create_agent` in
`graph.py`): conditional edges out of the intent and flight nodes via
the two routers (evaluated on the state after the node ran), fixed
edges `hotel_tool → synthesis` and from the terminal-producing nodes to
END. -/
def nextNode (n : Node) (s : AgentState) : Node :=
  match n with
  | .intent => nodeOfName (router s)
  | .flight_tool => nodeOfName (flightToolRouter s)
  | .hotel_tool => .synthesis
  | .clarify => .terminal
  | .synthesis => .terminal
  | .web_search_fallback => .terminal
  | .terminal => .terminal

/-- Whether the first character list is a prefix of the second. -/
def startsWithL : List Char → List Char → Bool
  | [], _ => true
  | _ :: _, [] => false
  | p :: ps, c :: cs => p = c && startsWithL ps cs

/-- Whether the first character list occurs contiguously inside the
second. -/
def infixOfL (pat : List Char) : List Char → Bool
  | [] => startsWithL pat []
  | c :: cs => startsWithL pat (c :: cs) || infixOfL pat cs

/-- Python substring containment (`"429" in error_code`). -/
def pyContains (s sub : String) : Bool :=
  infixOfL sub.toList s.toList

/-- Outcome of one `amadeus_service.search_hotel_offers` call as
observed inside the phase-2 loop of `hotel_tool`: the provider returns
a list of offer entries on success, or raises a `ResponseError` whose
string rendering the loop inspects for a 429 rate limit. -/
inductive OfferResult where
  | ok (entries : List HotelEntry)
  | err (msg : String)
deriving Repr, DecidableEq

/-- The phase-2 offer-accumulation loop of `hotel_tool` (`nodes.py`
lines 488..510).  Returns the accumulated offer entries, the list of
hotel ids for which an offer request was actually issued (in order),
and the number of rate-limit backoff sleeps performed.  A successful
non-empty result extends the accumulator and the loop breaks once it
holds at least 5 entries; a provider error whose rendering contains
429 sleeps and continues; any other provider error is skipped. -/
def hotelLoop (offersOf : String → OfferResult) :
    List String → List HotelEntry → List HotelEntry × List String × Nat
  | [], acc => (acc, [], 0)
  | hid :: rest, acc =>
    match offersOf hid with
    | .ok offerData =>
      if ! offerData.isEmpty then
        let acc2 := acc ++ offerData
        if 5 ≤ acc2.length then (acc2, [hid], 0)
        else
          let r := hotelLoop offersOf rest acc2
          (r.1, hid :: r.2.1, r.2.2)
      else
        let r := hotelLoop offersOf rest acc
        (r.1, hid :: r.2.1, r.2.2)
    | .err msg =>
      let r := hotelLoop offersOf rest acc
      if pyContains msg "429" then (r.1, hid :: r.2.1, r.2.2 + 1)
      else (r.1, hid :: r.2.1, r.2.2)

/-- The hotel search orchestrator (`hotel_tool` in `nodes.py`):
precondition checks, phase-1 city lookup (a provider error here is the
`ResponseError` branch of the surrounding try), id extraction from the
first 30 phase-1 records, the phase-2 loop, and the basic-hotels
fallback when no offer was accumulated. -/
def hotelTool (hotelsByCity : String → Except String (List HotelBasic))
    (offersOf : String → Int → String → String → OfferResult) (s : AgentState) : AgentState :=
  match s.intent with
  | none => { s with response := some "Internal error: missing intent" }
  | some i =>
    if ¬ pyTruthy i.destination then
      { s with hotels := some [], response := some "Missing destination city for hotel search" }
    else if ¬ pyTruthy i.check_in ∨ ¬ pyTruthy i.check_out then
      { s with hotels := some [],
               response := some "Missing check-in or check-out dates for hotel search" }
    else
      match hotelsByCity (i.destination.getD "") with
      | .error msg =>
        { s with hotels := some [], response := some ("Hotel search error: " ++ msg) }
      | .ok hotels_data =>
        if hotels_data.isEmpty then
          { s with hotels := some [],
                   response := some ("No hotels found in city: " ++ i.destination.getD "") }
        else
          let hotelIds := (hotels_data.take 30).filterMap (fun h => h.hotelId)
          if hotelIds.isEmpty then
            { s with hotels := some [], response := some "Could not extract hotel IDs" }
          else
            let res := hotelLoop
              (fun hid => offersOf hid i.travelers (i.check_in.getD "") (i.check_out.getD ""))
              hotelIds []
            let valid_offers := res.1
            if ! valid_offers.isEmpty then
              { s with hotels := some valid_offers }
            else
              let basic_hotels := (hotels_data.take 5).map
                (fun h => ({ hotel := some h, available := some false, offers := [] } : HotelEntry))
              if ! basic_hotels.isEmpty then
                { s with hotels := some basic_hotels,
                         response := some ("Found " ++ toString basic_hotels.length ++
                           " hotels in " ++ i.destination.getD "" ++
                           ", but no pricing/availability for your dates. Here are the hotels:") }
              else
                { s with hotels := some [],
                         response := some ("No available hotel offers in " ++
                           i.destination.getD "" ++ " for " ++ i.check_in.getD "" ++
                           " to " ++ i.check_out.getD "" ++ ".") }

/-- One result entry of a web-search backend (`{title, url, content}`);
`none` models an absent key, read back with the `.get` defaults of
`web_search_fallback_node`. -/
structure SearchHit where
  title : Option String := none
  url : Option String := none
  content : Option String := none
deriving Repr, DecidableEq

/-- Observable outcome of one SearXNG backend attempt: a raised
exception (timeout, connection or JSON error), or an HTTP response
with its status and decoded result list. -/
inductive BackendResult where
  | fail (msg : String)
  | http (status : Nat) (results : List SearchHit)
deriving Repr, DecidableEq

/-- Header of the rendered web-search response, labelling it as a
live-API-outage fallback. -/
def webHeader (q : String) : String :=
  "\n⚠️ **Note: The live flight booking API is temporarily unavailable.**\n\n🔍 **Here\x27s what I found from web search for \"" ++
    q ++ "\":**\n\n"

/-- Footer of the rendered web-search response with the recommendation
list and the possibly-stale-content disclaimer. -/
def webFooter : String :=
  "\n💡 **Recommendations:**\n- Visit the links above for real-time pricing and availability\n- Check airline websites directly for best deals\n- Compare prices on multiple booking platforms\n- The live API should be back online soon - try again later!\n\n⚠️ **Disclaimer:** The information above is from web search results and may not reflect current prices or availability. These are estimated options found on the internet.\n"

/-- Numbered rendering of collected web-search results, starting at
the given index: title (default No title), content snippet truncated
to 200 characters (default text when empty), and URL. -/
def renderEntriesFrom : Nat → List SearchHit → String
  | _, [] => ""
  | idx, h :: rest =>
    let title := h.title.getD "No title"
    let url := h.url.getD ""
    let content := h.content.getD ""
    let snippet := if content ≠ "" then pySlice content 200 else "No description available"
    "\n**" ++ toString idx ++ ". " ++ title ++ "**\n" ++ snippet ++ "...\n🔗 " ++ url ++
      "\n\n" ++ renderEntriesFrom (idx + 1) rest

/-- The response rendered from one successful SearXNG backend: header,
the top 5 results, footer (`web_search_fallback_node` lines
339..377). -/
def renderWebResults (q : String) (results : List SearchHit) : String :=
  webHeader q ++ renderEntriesFrom 1 (results.take 5) ++ webFooter

/-- The response rendered from the scraped DuckDuckGo results (already
limited to 5 entries by the scrape itself, `limit=5`). -/
def renderDdgResults (q : String) (hits : List SearchHit) : String :=
  webHeader q ++ renderEntriesFrom 1 hits ++ webFooter

/-- The SearXNG instance cascade of `web_search_fallback_node` (lines
327..381): try each backend in list order; the first one that returns
HTTP 200 with a non-empty result list produces the rendered response
and stops the iteration; an exception, a non-200 status or an empty
result list moves on to the next backend; `none` when every backend
failed. -/
def tryBackends (q : String) : List BackendResult → Option String
  | [] => none
  | .fail _ :: rest => tryBackends q rest
  | .http status results :: rest =>
    if status = 200 then
      if ! results.isEmpty then some (renderWebResults q results)
      else tryBackends q rest
    else tryBackends q rest

/-- The empty intent mapping (`state.intent or {}`). -/
def emptyIntent : IntentData :=
  { intent := "" }

/-- The static terminal fallback message (`get_fallback_message` in
`nodes.py`): resolved city names (best-effort), the requested date and
a fixed list of sites to check manually. -/
def getFallbackMessage (cityOf : String → Option String) (s : AgentState) : String :=
  let i := s.intent.getD emptyIntent
  let origin_city :=
    if pyTruthy i.origin then getCityName cityOf (i.origin.getD "") else "departure city"
  let dest_city :=
    if pyTruthy i.destination then getCityName cityOf (i.destination.getD "") else "destination city"
  let date := i.check_in.getD "your selected date"
  "\n⚠️ **The flight booking API is temporarily unavailable and web search is also having issues.**\n\n📋 **Your Search Details:**\n- From: " ++
    origin_city ++ "\n- To: " ++ dest_city ++ "\n- Date: " ++ date ++
    "\n\n💡 **What you can do:**\n1. **Visit these sites directly:**\n   - Google Flights: https://www.google.com/flights\n   - Skyscanner: https://www.skyscanner.com\n   - Kayak: https://www.kayak.com\n\n2. **Check airline websites:**\n   - Air India: https://www.airindia.in\n   - IndiGo: https://www.goindigo.in\n   - Vistara: https://www.airvistara.com\n\n3. **Try again later** - The API should be back online soon!\n\n🔄 I\x27ll be able to provide real-time flight data once the API is restored.\n"

/-- The web-search fallback node (`web_search_fallback_node` in
`nodes.py`): only acts when no flights were produced and the fallback
flag is armed; empty query short-circuits; then the SearXNG cascade,
then the DuckDuckGo HTML scrape (`ddg`, `none` standing for a failed
request, a non-200 status or an empty scrape), then the static
fallback message. -/
def webSearchFallbackNode (webBackends : List BackendResult) (ddg : Option (List SearchHit))
    (cityOf : String → Option String) (s : AgentState) : AgentState :=
  if ¬ pyTruthyL s.flights ∧ s.use_web_search then
    let search_query := s.search_query.getD ""
    if search_query = "" then
      { s with response := some "Unable to search for flights at this time." }
    else
      match tryBackends search_query webBackends with
      | some txt => { s with response := some txt }
      | none =>
        match ddg with
        | some hits =>
          if ! hits.isEmpty then
            { s with response := some (renderDdgResults search_query hits) }
          else { s with response := some (getFallbackMessage cityOf s) }
        | none => { s with response := some (getFallbackMessage cityOf s) }
  else s

/-- The clarification node (`clarify_node` in `nodes.py`): a
deterministic rendering of the reasoning, the information already
present and context-specific guidance. -/
def clarifyNode (s : AgentState) : AgentState :=
  let intent_data := s.intent.getD emptyIntent
  let reasoning := intent_data.reasoning
  let origin := intent_data.origin
  let destination := intent_data.destination
  let check_in := intent_data.check_in
  let check_out := intent_data.check_out
  let r1 := "I need more information to help you book your travel.\n\n"
  let r2 := if reasoning ≠ "" then r1 ++ "**" ++ reasoning ++ "**\n\n" else r1
  let has_info :=
    (if pyTruthy origin then ["✓ Departure: " ++ origin.getD ""] else []) ++
    (if pyTruthy destination then ["✓ Destination: " ++ destination.getD ""] else []) ++
    (if pyTruthy check_in then ["✓ Check-in/Departure date: " ++ check_in.getD ""] else []) ++
    (if pyTruthy check_out then ["✓ Check-out date: " ++ check_out.getD ""] else [])
  let r3 :=
    if ! has_info.isEmpty then
      r2 ++ "**What I have:**\n" ++ String.join (has_info.map (fun it => it ++ "\n")) ++ "\n"
    else r2
  let r4 :=
    if pyTruthy origin ∧ ¬ pyTruthy destination then
      r3 ++ "**What I need:**\n" ++
        "• Destination/Arrival city (e.g., Delhi, Bangalore, Chennai)\n" ++
        (if ¬ pyTruthy check_in then "• Travel/Departure date (e.g., tomorrow, 25th January)\n"
         else "") ++
        "\n**Example:** \x27to Delhi on 25th January\x27\n"
    else if pyTruthy destination ∧ ¬ pyTruthy origin then
      r3 ++ "**What I need:**\n" ++ "• Departure city (e.g., Mumbai, Bangalore)\n" ++
        (if ¬ pyTruthy check_in then "• Travel date (e.g., tomorrow, 25th January)\n" else "") ++
        "\n**Example:** \x27from Mumbai on 25th January\x27\n"
    else
      r3 ++
        "**For flight bookings, I need:**\n• Departure city (e.g., Mumbai, BOM)\n• Arrival city (e.g., Delhi, DEL)\n• Travel date (e.g., tomorrow, 25th January)\n\n" ++
        "**For hotel bookings, I need:**\n• Destination city (e.g., Delhi, Mumbai)\n• Check-in date (e.g., 25th January)\n• Check-out date (e.g., 27th January, or \x273 nights\x27)\n\n" ++
        "**Examples:**\n• \x27Book a flight from Mumbai to Delhi on 25th January\x27\n• \x27Book a hotel in Delhi from 25th to 27th January\x27\n• \x27Flight and hotel to Bangalore next week for 3 nights\x27\n"
  { s with response := some r4 }

/-- The flight part of the hotel/flight INR conversion: every flight
price is converted with the fixed EUR rate (`synthesis_node` lines
633..634), never consulting the currency field of the offer. -/
def flightPriceInr (f : FlightOffer) : ℤ :=
  pyInt (f.priceTotal * eurToInr)

/-- The per-currency hotel price conversion of `synthesis_node` (lines
670..681), applied to the total and base amounts of the first offer:
the EUR rate for EUR, 125 for GBP, 83 for USD, and no conversion (bare
truncation) for any other currency string. -/
def convertPair (currency : String) (total base : ℚ) : ℤ × ℤ :=
  if currency = "EUR" then (pyInt (total * eurToInr), pyInt (base * eurToInr))
  else if currency = "GBP" then (pyInt (total * 125), pyInt (base * 125))
  else if currency = "USD" then (pyInt (total * 83), pyInt (base * 83))
  else (pyInt total, pyInt base)

/-- Python `str.title()` composed over a character list: the first
letter of each alphabetic run is uppercased, the rest lowercased. -/
def pyTitleAux : Bool → List Char → List Char
  | _, [] => []
  | prevAlpha, c :: rest =>
    if c.isAlpha then
      (if prevAlpha then c.toLower else c.toUpper) :: pyTitleAux true rest
    else c :: pyTitleAux false rest

/-- Python `str.title()`. -/
def pyTitle (s : String) : String :=
  ⟨pyTitleAux false s.toList⟩

/-- Python `str.replace` for a single-character pattern, as used by
`synthesis_node` for `.replace(\x27_\x27, \x27 \x27)` on the room
category. -/
def pyReplaceChar (s : String) (a b : Char) : String :=
  ⟨s.toList.map (fun c => if c = a then b else c)⟩

/-- One flight line of the synthesis output (`synthesis_node` lines
624..646). -/
def renderFlightLine (cityOf : String → Option String) (f : FlightOffer) : String :=
  let segment := f.segment
  let flight_code := segment.carrierCode ++ " " ++ segment.number
  let time_str := formatFlightTime segment.departureAt
  let price_inr := flightPriceInr f
  let dep_code := segment.departureIata
  let arr_code := segment.arrivalIata
  let dep_city := getCityName cityOf dep_code
  let arr_city := getCityName cityOf arr_code
  let route_str := dep_city ++ " (" ++ dep_code ++ ") → " ++ arr_city ++ " (" ++ arr_code ++ ")"
  "  " ++ flight_code ++ " | " ++ route_str ++ " | " ++ time_str ++ " | ₹" ++ toString price_inr

/-- The block of lines `synthesis_node` emits for one hotel entry
(lines 654..730): the header line, then either the priced-offer lines
(price via `convertPair`, room, truncated description, stay dates,
policies) or the no-pricing lines with location/distance metadata, then
a blank line. -/
def renderHotelBlock (idx : Nat) (h : HotelEntry) : List String :=
  let hotel_info := h.hotel.getD {}
  let hotel_name := hotel_info.name.getD "Unknown Hotel"
  let hotel_id := hotel_info.hotelId.getD "N/A"
  let header := toString idx ++ ". **" ++ hotel_name ++ "** (ID: " ++ hotel_id ++ ")"
  let body :=
    match h.offers with
    | offer :: _ =>
      let price_info := offer.price.getD {}
      let currency := price_info.currency.getD "EUR"
      let total := price_info.total.getD 0
      let base := price_info.base.getD 0
      let pr := convertPair currency total base
      let priceLine := "   💰 Price: ₹" ++ toString pr.1 ++ " total (Base: ₹" ++ toString pr.2 ++
        ") | Currency: " ++ currency
      let room_info := offer.room.getD {}
      let room_estimated := room_info.typeEstimated.getD {}
      let room_category := pyTitle (pyReplaceChar (room_estimated.category.getD "Standard Room") '_' ' ')
      let beds := match room_estimated.beds with | some b => toString b | none => "N/A"
      let bed_type := room_estimated.bedType.getD "N/A"
      let roomLine := "   🛏️  Room: " ++ room_category ++ " | " ++ beds ++ " bed(s) - " ++ bed_type
      let desc_text := (room_info.description.getD {}).text.getD ""
      let descLines :=
        if desc_text ≠ "" then
          let desc_short :=
            if desc_text.length > 150 then pySlice desc_text 150 ++ "..." else desc_text
          ["   📝 " ++ desc_short]
        else []
      let check_in := offer.checkInDate.getD "N/A"
      let check_out := offer.checkOutDate.getD "N/A"
      let dateLine := "   📅 " ++ check_in ++ " to " ++ check_out
      let policies := offer.policies.getD {}
      let payment_type := policies.paymentType.getD "N/A"
      let cancellation := policies.cancellation.getD {}
      let cancel_type := cancellation.cancelType.getD "N/A"
      let cancel_desc_text := (cancellation.description.getD {}).text.getD "No cancellation info"
      [priceLine, roomLine] ++ descLines ++
        [dateLine, "   🏷️  Payment: " ++ payment_type ++ " | Cancellation: " ++ cancel_type,
         "   ℹ️  " ++ cancel_desc_text]
    | [] =>
      let noPrice := "   ℹ️  No pricing available for selected dates"
      let address := hotel_info.address.getD {}
      let city_name := address.cityName.getD ""
      let locLines := if city_name ≠ "" then ["   📍 Location: " ++ city_name] else []
      let distLines :=
        match hotel_info.distance with
        | some dist =>
          let dist_value := dist.value.getD ""
          let dist_unit := dist.unit.getD ""
          if dist_value ≠ "" then
            ["   📏 Distance from center: " ++ dist_value ++ " " ++ dist_unit]
          else []
        | none => []
      noPrice :: (locLines ++ distLines)
  header :: (body ++ [""])

/-- Numbered hotel blocks, `enumerate(state.hotels[:5], 1)`. -/
def renderHotelBlocks : Nat → List HotelEntry → List String
  | _, [] => []
  | idx, h :: rest => renderHotelBlock idx h ++ renderHotelBlocks (idx + 1) rest

/-- The result synthesizer (`synthesis_node` in `nodes.py`): the flight
section (at most 5 lines) when flights are present, the hotel section
(at most 5 blocks) when hotels are present, joined with newlines; when
no line was produced at all the literal no-results message is
returned. -/
def synthesisNode (cityOf : String → Option String) (s : AgentState) : AgentState :=
  let flightLines : List String :=
    if pyTruthyL s.flights then
      "✈️ **FLIGHTS:**" :: (((s.flights.getD []).take 5).map (renderFlightLine cityOf) ++ [""])
    else []
  let hotelLines : List String :=
    if pyTruthyL s.hotels then
      "🏨 **HOTELS:**" :: "" :: renderHotelBlocks 1 ((s.hotels.getD []).take 5)
    else []
  let lines := flightLines ++ hotelLines
  if lines.isEmpty then { s with response := some "No results available for your search." }
  else { s with response := some (String.intercalate "\n" lines) }

/-- The external collaborators of one pipeline execution: the wall
clock, the structured LLM output for the current query, the Amadeus
operations, the airport-code resolver and the web-search backends. -/
structure Providers where
  today : PyDate
  llmIntent : IntentData
  flightApi : String → String → String → Int → FlightApiResult
  hotelsByCity : String → Except String (List HotelBasic)
  hotelOffers : String → Int → String → String → OfferResult
  cityOf : String → Option String
  webBackends : List BackendResult
  ddg : Option (List SearchHit)

/-- The intent node (`intent_node` in `nodes.py`): delegate to the LLM
collaborator (whose normalized output for the current query is
`p.llmIntent`) and apply the deterministic post-processing. -/
def intentNode (p : Providers) (s : AgentState) : AgentState :=
  { s with intent := some (intentPostProcess p.today p.llmIntent) }

/-- Execution of a single graph node: each node returns a partial state
update which LangGraph merges into the state by overwriting exactly the
returned keys, so each node is modelled as a state transformer setting
exactly the fields of its returned dict. -/
def runNode (p : Providers) (n : Node) (s : AgentState) : AgentState :=
  match n with
  | .intent => intentNode p s
  | .flight_tool => flightTool p.flightApi p.cityOf s
  | .hotel_tool => hotelTool p.hotelsByCity p.hotelOffers s
  | .clarify => clarifyNode s
  | .synthesis => synthesisNode p.cityOf s
  | .web_search_fallback => webSearchFallbackNode p.webBackends p.ddg p.cityOf s
  | .terminal => s

/-- Fuel-bounded execution of the compiled graph from a node: runs the
node, follows the edge chosen on the post-node state, and records the
visited nodes in order (END excluded). -/
def run (p : Providers) : Nat → Node → AgentState → AgentState × List Node
  | 0, _, s => (s, [])
  | Nat.succ fuel, n, s =>
    if n = .terminal then (s, [])
    else
      let s2 := runNode p n s
      let r := run p fuel (nextNode n s2) s2
      (r.1, n :: r.2)

/-- Equality of the five non-intent, non-reasoning fields of two
intent mappings (used to state frame properties of the validator). -/
def sameFields (a b : IntentData) : Prop :=
  a.origin = b.origin ∧ a.destination = b.destination ∧ a.check_in = b.check_in ∧
    a.check_out = b.check_out ∧ a.travelers = b.travelers

/-- Whether a web-search backend attempt is the success the cascade
stops at: HTTP 200 with a non-empty result list. -/
def backendSuccess : BackendResult → Bool
  | .http 200 results => ! results.isEmpty
  | _ => false

/-- A sample wall-clock date used by concrete test vectors. -/
def exToday : PyDate := ⟨2026, 1, 10⟩

/-- A complete flight-search intent test vector. -/
def exFlightIntent : IntentData :=
  { intent := "flight_search", origin := some "BOM", destination := some "DEL",
    check_in := some "2026-03-05", check_out := none, travelers := 1, reasoning := "ok" }

/-- A flight-search test vector whose check-in date lies before
`exToday`. -/
def exPastIntent : IntentData :=
  { exFlightIntent with check_in := some "2026-01-05" }

/-- A flight-search test vector with origin equal to destination and no
date. -/
def exDupIntent : IntentData :=
  { intent := "flight_search", origin := some "BOM", destination := some "BOM",
    check_in := none, check_out := none, travelers := 1, reasoning := "" }

/-- A complete combined-search intent test vector. -/
def exBothIntent : IntentData :=
  { intent := "both", origin := some "BOM", destination := some "DEL",
    check_in := some "2026-03-05", check_out := some "2026-03-08", travelers := 2,
    reasoning := "ok" }

/-- Pipeline state holding the complete flight-search intent. -/
def exStateFlight : AgentState :=
  { query := "flight", intent := some exFlightIntent }

/-- Pipeline state holding the complete combined-search intent. -/
def exStateBoth : AgentState :=
  { query := "both", intent := some exBothIntent }

/-- A flight provider failing with a hard (non-outage) error. -/
def apiHardErr : String → String → String → Int → FlightApiResult :=
  fun _ _ _ _ => .err [{ code := some 477, status := some 400 }] "[400] Bad request"

/-- A flight provider failing with the system-unavailable error code
141. -/
def apiOutage : String → String → String → Int → FlightApiResult :=
  fun _ _ _ _ => .err [{ code := some 141, status := none }] "[500] System error has occurred"

/-- A flight provider failing with a 503 status (a 5xx status that is
not exactly 500) and a non-outage error code. -/
def api503 : String → String → String → Int → FlightApiResult :=
  fun _ _ _ _ => .err [{ code := some 38189, status := some 503 }] "[503] Service unavailable"

/-- A city resolver knowing the two sample airports. -/
def cityTable : String → Option String :=
  fun c => if c = "BOM" then some "Mumbai" else if c = "DEL" then some "Delhi" else none

/-- Providers for a turn whose flight call fails with a hard error. -/
def errProviders : Providers :=
  { today := exToday, llmIntent := exFlightIntent, flightApi := apiHardErr,
    hotelsByCity := fun _ => .ok [], hotelOffers := fun _ _ _ _ => .ok [],
    cityOf := cityTable, webBackends := [], ddg := none }

/-- Providers for a combined-search turn whose flight call hits the
outage error code. -/
def outageProviders : Providers :=
  { errProviders with flightApi := apiOutage, llmIntent := exBothIntent }

/-- Initial pipeline state for the hard-error flight turn. -/
def exInitFlight : AgentState :=
  { query := "Book a flight from BOM to DEL" }

/-- A minimal hotel-offer entry used to count accumulated offers. -/
def exOfferEntry : HotelEntry :=
  { hotel := some { hotelId := some "HX", name := some "X" }, available := some true,
    offers := [] }

/-- A per-hotel offer provider: one rate-limited id, one id with three
offers, one with none, one with two (reaching the quota), and a
default. -/
def exOffersOf : String → OfferResult :=
  fun hid =>
    if hid = "E1" then .err "[429] Too many requests"
    else if hid = "H1" then .ok [exOfferEntry, exOfferEntry, exOfferEntry]
    else if hid = "H2" then .ok []
    else if hid = "H3" then .ok [exOfferEntry, exOfferEntry]
    else .ok [exOfferEntry]

/-- Hotel id list for the loop test vector. -/
def exIds : List String := ["E1", "H1", "H2", "H3"]

/-- A sample web-search hit. -/
def exHit : SearchHit :=
  { title := some "Cheap flights", url := some "https://example.com/f",
    content := some "Flights from Mumbai to Delhi available from Rs 4000" }

/-- A run of failing backends: an exception, a 503, and a 200 with an
empty result list. -/
def exBackendsPre : List BackendResult :=
  [.fail "timeout", .http 503 [], .http 200 []]

/-- A hotel offer priced 100 USD. -/
def exUsdOffer : HotelOfferEntry :=
  { price := some { currency := some "USD", total := some 100, base := some 100 } }

/-- A hotel entry whose first offer is the 100 USD offer. -/
def exUsdHotel : HotelEntry :=
  { hotel := some { hotelId := some "HUSD", name := some "Dollar Inn" },
    available := some true, offers := [exUsdOffer] }

example : parseIsoDate "2026-10-12" = some ⟨2026, 10, 12⟩ := by decide

example : parseIsoDate "2026-13-12" = none := by decide

example : parseIsoDate "2025-02-29" = none := by decide

example : parseIsoDate "2024-02-29" = some ⟨2024, 2, 29⟩ := by decide

example :
    (intentPostProcess ⟨2026, 10, 12⟩
      { intent := "flight_search", origin := some "BOM", destination := some "DEL",
        check_in := some "2026-10-13" }).intent = "flight_search" := by decide

example :
    (intentPostProcess ⟨2026, 10, 12⟩
      { intent := "flight_search", origin := some "BOM", destination := some "DEL",
        check_in := some "2026-10-11" }).reasoning =
      "Check-in/departure date cannot be in the past" := by decide

example :
    (intentPostProcess ⟨2026, 10, 12⟩
      { intent := "flight_search", origin := some "BOM", destination := some "BOM",
        check_in := none }).reasoning =
      "Missing: arrival city/airport (cannot be same as departure), departure/travel date" := by
  decide

example :
    (intentPostProcess ⟨2026, 10, 12⟩
      { intent := "hotel_search", origin := some "DEL", destination := none,
        check_in := some "2026-10-13", check_out := some "2026-10-15" }).destination =
      some "DEL" := by decide

lemma pyTruthy_ne_none {o : Option String} (h : pyTruthy o = true) : o ≠ none := by
  cases o with
  | none => simp [pyTruthy] at h
  | some s => simp

lemma sameFields_refl (a : IntentData) : sameFields a a :=
  ⟨rfl, rfl, rfl, rfl, rfl⟩

lemma sameFields_trans {a b c : IntentData} (h1 : sameFields a b) (h2 : sameFields b c) :
    sameFields a c := by
  obtain ⟨e1, e2, e3, e4, e5⟩ := h1
  obtain ⟨f1, f2, f3, f4, f5⟩ := h2
  exact ⟨e1.trans f1, e2.trans f2, e3.trans f3, e4.trans f4, e5.trans f5⟩

lemma checkOf_sf (missing : IntentData → List String) (d : IntentData) :
    sameFields (checkOf missing d) d := by
  unfold checkOf
  split
  · exact ⟨rfl, rfl, rfl, rfl, rfl⟩
  · exact sameFields_refl d

lemma checkOf_intent (missing : IntentData → List String) (d : IntentData) :
    (checkOf missing d).intent = d.intent ∨ (checkOf missing d).intent = "clarify" := by
  unfold checkOf
  split
  · exact Or.inr rfl
  · exact Or.inl rfl

lemma checkOf_not_clarify (missing : IntentData → List String) (d : IntentData)
    (h : (checkOf missing d).intent ≠ "clarify") :
    checkOf missing d = d ∧ missing d = [] := by
  unfold checkOf at *
  by_cases hc : missing d = []
  · rw [if_neg (not_not_intro hc)]
    exact ⟨rfl, hc⟩
  · exfalso
    apply h
    rw [if_pos hc]

lemma checkOf_pos (missing : IntentData → List String) (d : IntentData) (h : missing d ≠ []) :
    checkOf missing d =
      { d with intent := "clarify", reasoning := "Missing: " ++ joinComma (missing d) } := by
  unfold checkOf
  rw [if_pos h]

lemma dateGuard_sf (t : PyDate) (d : IntentData) : sameFields (dateGuard t d) d := by
  unfold dateGuard
  split
  · split
    · split
      · exact ⟨rfl, rfl, rfl, rfl, rfl⟩
      · exact sameFields_refl d
    · exact ⟨rfl, rfl, rfl, rfl, rfl⟩
  · exact sameFields_refl d

lemma dateGuard_intent (t : PyDate) (d : IntentData) :
    (dateGuard t d).intent = d.intent ∨ (dateGuard t d).intent = "clarify" := by
  unfold dateGuard
  split
  · split
    · split
      · exact Or.inr rfl
      · exact Or.inl rfl
    · exact Or.inr rfl
  · exact Or.inl rfl

lemma guard_keeps_clarify (t : PyDate) {x : IntentData} (h : x.intent = "clarify") :
    (dateGuard t x).intent = "clarify" := by
  rcases dateGuard_intent t x with h2 | h2
  · rw [h2, h]
  · exact h2

lemma hotelSwapFix_intent (o : String) (d : IntentData) :
    (hotelSwapFix o d).intent = d.intent := by
  unfold hotelSwapFix
  split <;> rfl

lemma hotelSwapFix_ci (o : String) (d : IntentData) :
    (hotelSwapFix o d).check_in = d.check_in := by
  unfold hotelSwapFix
  split <;> rfl

lemma hotelSwapFix_ne (o : String) (d : IntentData) (h : o ≠ "hotel_search") :
    hotelSwapFix o d = d := by
  unfold hotelSwapFix
  exact if_neg (fun hc => h hc.1)

lemma ite_sf (c : Prop) [Decidable c] (f : IntentData → IntentData)
    (hf : ∀ x, sameFields (f x) x) (x : IntentData) :
    sameFields (if c then f x else x) x := by
  split
  · exact hf x
  · exact sameFields_refl x

lemma checksDispatch_sf (o : String) (d : IntentData) :
    sameFields (checksDispatch o d) d := by
  unfold checksDispatch
  exact sameFields_trans
    (ite_sf (o = "both") applyBothCheck (checkOf_sf bothMissing) _)
    (sameFields_trans
      (ite_sf (o = "hotel_search") applyHotelCheck (checkOf_sf hotelMissing) _)
      (ite_sf (o = "flight_search") applyFlightCheck (checkOf_sf flightMissing) _))

lemma orClarify_trans {x y z : IntentData}
    (h1 : y.intent = x.intent ∨ y.intent = "clarify")
    (h2 : z.intent = y.intent ∨ z.intent = "clarify") :
    z.intent = x.intent ∨ z.intent = "clarify" := by
  rcases h2 with h2 | h2
  · rcases h1 with h1 | h1
    · exact Or.inl (h2.trans h1)
    · exact Or.inr (h2.trans h1)
  · exact Or.inr h2

lemma ite_intent (c : Prop) [Decidable c] (f : IntentData → IntentData)
    (hf : ∀ x, (f x).intent = x.intent ∨ (f x).intent = "clarify") (x : IntentData) :
    (if c then f x else x).intent = x.intent ∨ (if c then f x else x).intent = "clarify" := by
  split
  · exact hf x
  · exact Or.inl rfl

lemma checksDispatch_intent (o : String) (d : IntentData) :
    (checksDispatch o d).intent = d.intent ∨ (checksDispatch o d).intent = "clarify" := by
  unfold checksDispatch
  exact orClarify_trans
    (orClarify_trans
      (ite_intent (o = "flight_search") applyFlightCheck (checkOf_intent flightMissing) d)
      (ite_intent (o = "hotel_search") applyHotelCheck (checkOf_intent hotelMissing) _))
    (ite_intent (o = "both") applyBothCheck (checkOf_intent bothMissing) _)

lemma preGuard_intent (d : IntentData) :
    (preGuard d).intent = d.intent ∨ (preGuard d).intent = "clarify" := by
  unfold preGuard
  have h := checksDispatch_intent d.intent (hotelSwapFix d.intent d)
  rw [hotelSwapFix_intent] at h
  exact h

lemma intentPostProcess_intent (t : PyDate) (d : IntentData) :
    (intentPostProcess t d).intent = d.intent ∨ (intentPostProcess t d).intent = "clarify" := by
  unfold intentPostProcess
  exact orClarify_trans (preGuard_intent d) (dateGuard_intent t (preGuard d))

lemma intentPostProcess_sf (t : PyDate) (d : IntentData) :
    sameFields (intentPostProcess t d) (hotelSwapFix d.intent d) := by
  unfold intentPostProcess preGuard
  exact sameFields_trans (dateGuard_sf t _) (checksDispatch_sf _ _)

lemma checksDispatch_flight (d : IntentData) :
    checksDispatch "flight_search" d = applyFlightCheck d := by
  simp [checksDispatch]

lemma checksDispatch_hotel (d : IntentData) :
    checksDispatch "hotel_search" d = applyHotelCheck d := by
  simp [checksDispatch]

lemma checksDispatch_both (d : IntentData) :
    checksDispatch "both" d = applyBothCheck d := by
  simp [checksDispatch]

lemma preGuard_flight (d : IntentData) (h : d.intent = "flight_search") :
    preGuard d = applyFlightCheck d := by
  unfold preGuard
  rw [h, hotelSwapFix_ne _ _ (by decide), checksDispatch_flight]

lemma preGuard_hotel (d : IntentData) (h : d.intent = "hotel_search") :
    preGuard d = applyHotelCheck (hotelSwapFix "hotel_search" d) := by
  unfold preGuard
  rw [h, checksDispatch_hotel]

lemma preGuard_both (d : IntentData) (h : d.intent = "both") :
    preGuard d = applyBothCheck d := by
  unfold preGuard
  rw [h, hotelSwapFix_ne _ _ (by decide), checksDispatch_both]

lemma flightMissing_nil {d : IntentData} (h : flightMissing d = []) :
    pyTruthy d.origin = true ∧ pyTruthy d.destination = true ∧ pyTruthy d.check_in = true := by
  unfold flightMissing at h
  split_ifs at h <;> simp_all

lemma hotelMissing_nil {d : IntentData} (h : hotelMissing d = []) :
    pyTruthy d.destination = true ∧ pyTruthy d.check_in = true ∧
      pyTruthy d.check_out = true := by
  unfold hotelMissing at h
  split_ifs at h <;> simp_all

lemma bothMissing_nil {d : IntentData} (h : bothMissing d = []) :
    pyTruthy d.origin = true ∧ pyTruthy d.destination = true ∧
      pyTruthy d.check_in = true ∧ pyTruthy d.check_out = true := by
  unfold bothMissing at h
  split_ifs at h <;> simp_all

lemma preGuard_check_in (d : IntentData) : (preGuard d).check_in = d.check_in := by
  have hs := checksDispatch_sf d.intent (hotelSwapFix d.intent d)
  exact hs.2.2.1.trans (hotelSwapFix_ci _ _)

/-- C1: every intent emitted by the post-processing of `intent_node`
whose intent field is flight_search, hotel_search or both has all the
required fields of that type non-null (origin, destination, check_in
for flight_search; destination, check_in, check_out for hotel_search;
all four for both); an intent missing a required field would have been
downgraded to clarify. -/
theorem C1_validator_required_fields (today : PyDate) (d : IntentData) :
    ((intentPostProcess today d).intent = "flight_search" →
      (intentPostProcess today d).origin ≠ none ∧
      (intentPostProcess today d).destination ≠ none ∧
      (intentPostProcess today d).check_in ≠ none) ∧
    ((intentPostProcess today d).intent = "hotel_search" →
      (intentPostProcess today d).destination ≠ none ∧
      (intentPostProcess today d).check_in ≠ none ∧
      (intentPostProcess today d).check_out ≠ none) ∧
    ((intentPostProcess today d).intent = "both" →
      (intentPostProcess today d).origin ≠ none ∧
      (intentPostProcess today d).destination ≠ none ∧
      (intentPostProcess today d).check_in ≠ none ∧
      (intentPostProcess today d).check_out ≠ none) := by
  have hsf := intentPostProcess_sf today d
  obtain ⟨ho, hd, hci, hco, -⟩ := hsf
  refine ⟨?_, ?_, ?_⟩
  · intro h
    have horig : d.intent = "flight_search" := by
      rcases intentPostProcess_intent today d with h2 | h2
      · rw [h2] at h
        exact h
      · rw [h2] at h
        exact absurd h (by decide)
    have hpre : preGuard d = applyFlightCheck d := preGuard_flight d horig
    have hfc : (applyFlightCheck d).intent ≠ "clarify" := by
      have hdg : (dateGuard today (applyFlightCheck d)).intent = "flight_search" := by
        rw [← hpre]
        exact h
      rcases dateGuard_intent today (applyFlightCheck d) with h2 | h2
      · rw [h2] at hdg
        rw [hdg]
        decide
      · rw [h2] at hdg
        exact absurd hdg (by decide)
    obtain ⟨-, hnil⟩ := checkOf_not_clarify flightMissing d hfc
    obtain ⟨t1, t2, t3⟩ := flightMissing_nil hnil
    have hswap : hotelSwapFix d.intent d = d := hotelSwapFix_ne _ _ (by rw [horig]; decide)
    rw [hswap] at ho hd hci
    rw [ho, hd, hci]
    exact ⟨pyTruthy_ne_none t1, pyTruthy_ne_none t2, pyTruthy_ne_none t3⟩
  · intro h
    have horig : d.intent = "hotel_search" := by
      rcases intentPostProcess_intent today d with h2 | h2
      · rw [h2] at h
        exact h
      · rw [h2] at h
        exact absurd h (by decide)
    have hpre : preGuard d = applyHotelCheck (hotelSwapFix "hotel_search" d) :=
      preGuard_hotel d horig
    have hfc : (applyHotelCheck (hotelSwapFix "hotel_search" d)).intent ≠ "clarify" := by
      have hdg : (dateGuard today (applyHotelCheck (hotelSwapFix "hotel_search" d))).intent =
          "hotel_search" := by
        rw [← hpre]
        exact h
      rcases dateGuard_intent today (applyHotelCheck (hotelSwapFix "hotel_search" d)) with h2 | h2
      · rw [h2] at hdg
        rw [hdg]
        decide
      · rw [h2] at hdg
        exact absurd hdg (by decide)
    obtain ⟨-, hnil⟩ := checkOf_not_clarify hotelMissing _ hfc
    obtain ⟨t1, t2, t3⟩ := hotelMissing_nil hnil
    rw [horig] at ho hd hci hco
    rw [hd, hci, hco]
    exact ⟨pyTruthy_ne_none t1, pyTruthy_ne_none t2, pyTruthy_ne_none t3⟩
  · intro h
    have horig : d.intent = "both" := by
      rcases intentPostProcess_intent today d with h2 | h2
      · rw [h2] at h
        exact h
      · rw [h2] at h
        exact absurd h (by decide)
    have hpre : preGuard d = applyBothCheck d := preGuard_both d horig
    have hfc : (applyBothCheck d).intent ≠ "clarify" := by
      have hdg : (dateGuard today (applyBothCheck d)).intent = "both" := by
        rw [← hpre]
        exact h
      rcases dateGuard_intent today (applyBothCheck d) with h2 | h2
      · rw [h2] at hdg
        rw [hdg]
        decide
      · rw [h2] at hdg
        exact absurd hdg (by decide)
    obtain ⟨-, hnil⟩ := checkOf_not_clarify bothMissing d hfc
    obtain ⟨t1, t2, t3, t4⟩ := bothMissing_nil hnil
    have hswap : hotelSwapFix d.intent d = d := hotelSwapFix_ne _ _ (by rw [horig]; decide)
    rw [hswap] at ho hd hci hco
    rw [ho, hd, hci, hco]
    exact ⟨pyTruthy_ne_none t1, pyTruthy_ne_none t2, pyTruthy_ne_none t3, pyTruthy_ne_none t4⟩

/-- Witness for C1: a complete flight-search intent leaves the
validator as flight_search, and the theorem then yields that its origin
is non-null. -/
theorem C1_validator_required_fields_witness :
    (intentPostProcess exToday exFlightIntent).intent = "flight_search" ∧
    (intentPostProcess exToday exFlightIntent).origin ≠ none :=
  ⟨by decide, ((C1_validator_required_fields exToday exFlightIntent).1 (by decide)).1⟩

/-- C4: the past-date guard runs for every intent with a truthy
check_in regardless of intent type: a check_in parsing as an ISO date
strictly before today forces clarify with the past-date reasoning, and
a check_in failing to parse forces clarify with the
invalid-date-format reasoning. -/
theorem C4_past_date_guard (today : PyDate) (d : IntentData)
    (hci : pyTruthy d.check_in = true) :
    (∀ ci, parseIsoDate (d.check_in.getD "") = some ci → dateLt ci today = true →
      (intentPostProcess today d).intent = "clarify" ∧
      (intentPostProcess today d).reasoning = "Check-in/departure date cannot be in the past") ∧
    (parseIsoDate (d.check_in.getD "") = none →
      (intentPostProcess today d).intent = "clarify" ∧
      (intentPostProcess today d).reasoning =
        "Invalid date format. Please provide a valid date.") := by
  have hc4 : (preGuard d).check_in = d.check_in := preGuard_check_in d
  constructor
  · intro ci hp hlt
    show (dateGuard today (preGuard d)).intent = "clarify" ∧
      (dateGuard today (preGuard d)).reasoning = _
    unfold dateGuard
    rw [hc4, if_pos hci]
    simp only [hp, hc4]
    rw [if_pos hlt]
    exact ⟨rfl, rfl⟩
  · intro hp
    show (dateGuard today (preGuard d)).intent = "clarify" ∧
      (dateGuard today (preGuard d)).reasoning = _
    unfold dateGuard
    rw [hc4, if_pos hci]
    simp only [hp, hc4]
    simp

/-- Witness for C4: a complete intent with check_in five days before
today is forced to clarify with the past-date reasoning. -/
theorem C4_past_date_guard_witness :
    (intentPostProcess exToday exPastIntent).intent = "clarify" ∧
    (intentPostProcess exToday exPastIntent).reasoning =
      "Check-in/departure date cannot be in the past" :=
  (C4_past_date_guard exToday exPastIntent (by decide)).1 ⟨2026, 1, 5⟩ (by decide) (by decide)

/-- C9: whenever a required field is missing for a search intent (or
origin equals destination on a flight search), the completeness checks
rewrite the intent to clarify with a reasoning that comma-joins every
collected missing item in the source order of the required-field
table, and the origin-equals-destination violation contributes the
item mentioning arrival city/airport. -/
theorem C9_clarify_reasoning_order (today : PyDate) (d : IntentData) :
    (d.intent = "flight_search" → flightMissing d ≠ [] →
      (preGuard d).intent = "clarify" ∧
      (preGuard d).reasoning = "Missing: " ++ joinComma (flightMissing d) ∧
      (intentPostProcess today d).intent = "clarify") ∧
    (d.intent = "hotel_search" → hotelMissing (hotelSwapFix "hotel_search" d) ≠ [] →
      (preGuard d).intent = "clarify" ∧
      (preGuard d).reasoning =
        "Missing: " ++ joinComma (hotelMissing (hotelSwapFix "hotel_search" d)) ∧
      (intentPostProcess today d).intent = "clarify") ∧
    (d.intent = "both" → bothMissing d ≠ [] →
      (preGuard d).intent = "clarify" ∧
      (preGuard d).reasoning = "Missing: " ++ joinComma (bothMissing d) ∧
      (intentPostProcess today d).intent = "clarify") ∧
    (pyTruthy d.origin = true → pyTruthy d.destination = true → d.origin = d.destination →
      "arrival city/airport (cannot be same as departure)" ∈ flightMissing d ∧
      startsWithL "arrival city/airport".toList
        "arrival city/airport (cannot be same as departure)".toList = true) := by
  refine ⟨?_, ?_, ?_, ?_⟩
  · intro h hm
    have e : preGuard d = applyFlightCheck d := preGuard_flight d h
    have e2 := checkOf_pos flightMissing d hm
    rw [e]
    refine ⟨by rw [show applyFlightCheck d = checkOf flightMissing d from rfl, e2],
      by rw [show applyFlightCheck d = checkOf flightMissing d from rfl, e2], ?_⟩
    show (dateGuard today (preGuard d)).intent = "clarify"
    apply guard_keeps_clarify
    rw [e, show applyFlightCheck d = checkOf flightMissing d from rfl, e2]
  · intro h hm
    have e : preGuard d = applyHotelCheck (hotelSwapFix "hotel_search" d) := preGuard_hotel d h
    have e2 := checkOf_pos hotelMissing (hotelSwapFix "hotel_search" d) hm
    rw [e]
    refine ⟨by rw [show applyHotelCheck _ = checkOf hotelMissing _ from rfl, e2],
      by rw [show applyHotelCheck _ = checkOf hotelMissing _ from rfl, e2], ?_⟩
    show (dateGuard today (preGuard d)).intent = "clarify"
    apply guard_keeps_clarify
    rw [e, show applyHotelCheck _ = checkOf hotelMissing _ from rfl, e2]
  · intro h hm
    have e : preGuard d = applyBothCheck d := preGuard_both d h
    have e2 := checkOf_pos bothMissing d hm
    rw [e]
    refine ⟨by rw [show applyBothCheck d = checkOf bothMissing d from rfl, e2],
      by rw [show applyBothCheck d = checkOf bothMissing d from rfl, e2], ?_⟩
    show (dateGuard today (preGuard d)).intent = "clarify"
    apply guard_keeps_clarify
    rw [e, show applyBothCheck d = checkOf bothMissing d from rfl, e2]
  · intro ho hd he
    constructor
    · unfold flightMissing
      simp [ho, hd, he]
    · decide

/-- Witness for C9: a flight intent with origin equal to destination
and no date is rewritten to clarify with both collected items
comma-joined in source order. -/
theorem C9_clarify_reasoning_order_witness :
    flightMissing exDupIntent ≠ [] ∧
    (preGuard exDupIntent).intent = "clarify" ∧
    (preGuard exDupIntent).reasoning = "Missing: " ++ joinComma (flightMissing exDupIntent) := by
  have h := (C9_clarify_reasoning_order exToday exDupIntent).1 rfl (by decide)
  exact ⟨by decide, h.1, h.2.1⟩

/-- C10: the completeness checks and the past-date guard (everything
following the hotel swap fix) rewrite only the intent and reasoning
fields: origin, destination, check_in, check_out and travelers leave
`intent_node` exactly as the swap fix left them. -/
theorem C10_downgrade_frame (today : PyDate) (d : IntentData) :
    (intentPostProcess today d).origin = (hotelSwapFix d.intent d).origin ∧
    (intentPostProcess today d).destination = (hotelSwapFix d.intent d).destination ∧
    (intentPostProcess today d).check_in = (hotelSwapFix d.intent d).check_in ∧
    (intentPostProcess today d).check_out = (hotelSwapFix d.intent d).check_out ∧
    (intentPostProcess today d).travelers = (hotelSwapFix d.intent d).travelers :=
  intentPostProcess_sf today d

lemma flightTool_intent (api : String → String → String → Int → FlightApiResult)
    (cityOf : String → Option String) (s : AgentState) :
    (flightTool api cityOf s).intent = s.intent := by
  unfold flightTool
  repeat' split
  all_goals rfl

lemma run_succ (p : Providers) (fuel : Nat) (n : Node) (s : AgentState) (h : n ≠ .terminal) :
    run p (fuel + 1) n s =
      ((run p fuel (nextNode n (runNode p n s)) (runNode p n s)).1,
        n :: (run p fuel (nextNode n (runNode p n s)) (runNode p n s)).2) := by
  rw [run, if_neg h]

lemma run_terminal (p : Providers) (fuel : Nat) (s : AgentState) :
    run p (fuel + 1) .terminal s = (s, []) := by
  rw [run, if_pos rfl]

/-- C5: with intent `both`, stage-1 routing enters the flight step, and
when the flight step has not armed the fallback flag the turn visits
flight-search, hotel-search, synthesis in exactly that order; whenever
the flight step armed the fallback flag, the turn goes from
flight-search straight to the fallback cascade and the hotel step does
not run, regardless of intent. -/
theorem C5_routing_order (p : Providers) (s : AgentState) :
    (∀ i, s.intent = some i → i.intent = "both" →
      nextNode .intent s = .flight_tool ∧
      ((runNode p .flight_tool s).use_web_search = false →
        (run p 4 .flight_tool s).2 = [.flight_tool, .hotel_tool, .synthesis])) ∧
    ((runNode p .flight_tool s).use_web_search = true →
      (run p 4 .flight_tool s).2 = [.flight_tool, .web_search_fallback] ∧
      Node.hotel_tool ∉ (run p 4 .flight_tool s).2) := by
  constructor
  · intro i hi hb
    constructor
    · show nodeOfName (router s) = .flight_tool
      simp only [router, hi]
      simp [hb, nodeOfName]
    · intro hw
      have hs2i : (runNode p .flight_tool s).intent = s.intent := flightTool_intent _ _ _
      have hrt : flightToolRouter (runNode p .flight_tool s) = "hotel_tool" := by
        unfold flightToolRouter
        rw [if_neg (by simp [hw])]
        simp only [hs2i, hi]
        simp [hb]
      have hnext1 : nextNode .flight_tool (runNode p .flight_tool s) = .hotel_tool := by
        show nodeOfName (flightToolRouter (runNode p .flight_tool s)) = .hotel_tool
        rw [hrt]
        decide
      have e4 : run p 4 .flight_tool s = run p (3 + 1) .flight_tool s := rfl
      rw [e4, run_succ p 3 .flight_tool s (by decide), hnext1]
      have e3 : ∀ x : AgentState, run p 3 .hotel_tool x = run p (2 + 1) .hotel_tool x :=
        fun _ => rfl
      rw [e3, run_succ p 2 .hotel_tool _ (by decide)]
      have hnext2 : ∀ x : AgentState, nextNode .hotel_tool x = .synthesis := fun _ => rfl
      rw [hnext2]
      have e2 : ∀ x : AgentState, run p 2 .synthesis x = run p (1 + 1) .synthesis x :=
        fun _ => rfl
      rw [e2, run_succ p 1 .synthesis _ (by decide)]
      have hnext3 : ∀ x : AgentState, nextNode .synthesis x = .terminal := fun _ => rfl
      rw [hnext3]
      have e1 : ∀ x : AgentState, run p 1 .terminal x = run p (0 + 1) .terminal x :=
        fun _ => rfl
      rw [e1, run_terminal]
  · intro hw
    have hrt : flightToolRouter (runNode p .flight_tool s) = "web_search_fallback" := by
      unfold flightToolRouter
      rw [if_pos hw]
    have hnext1 : nextNode .flight_tool (runNode p .flight_tool s) = .web_search_fallback := by
      show nodeOfName (flightToolRouter (runNode p .flight_tool s)) = .web_search_fallback
      rw [hrt]
      decide
    have e4 : run p 4 .flight_tool s = run p (3 + 1) .flight_tool s := rfl
    have tr : (run p 4 .flight_tool s).2 = [.flight_tool, .web_search_fallback] := by
      rw [e4, run_succ p 3 .flight_tool s (by decide), hnext1]
      have e3 : ∀ x : AgentState,
          run p 3 .web_search_fallback x = run p (2 + 1) .web_search_fallback x := fun _ => rfl
      rw [e3, run_succ p 2 .web_search_fallback _ (by decide)]
      have hnext2 : ∀ x : AgentState, nextNode .web_search_fallback x = .terminal :=
        fun _ => rfl
      rw [hnext2]
      have e2 : ∀ x : AgentState, run p 2 .terminal x = run p (1 + 1) .terminal x :=
        fun _ => rfl
      rw [e2, run_terminal]
    refine ⟨tr, ?_⟩
    rw [tr]
    decide

/-- Witness for C5: a hard-error flight turn on a combined intent does
not arm the fallback and visits flight, hotel, synthesis; an
outage-classified flight turn arms it and visits flight then the
fallback cascade. -/
theorem C5_routing_order_witness :
    (runNode errProviders .flight_tool exStateBoth).use_web_search = false ∧
    (run errProviders 4 .flight_tool exStateBoth).2 =
      [.flight_tool, .hotel_tool, .synthesis] ∧
    (runNode outageProviders .flight_tool exStateBoth).use_web_search = true ∧
    (run outageProviders 4 .flight_tool exStateBoth).2 =
      [.flight_tool, .web_search_fallback] :=
  ⟨by decide,
   ((C5_routing_order errProviders exStateBoth).1 exBothIntent rfl rfl).2 (by decide),
   by decide,
   ((C5_routing_order outageProviders exStateBoth).2 (by decide)).1⟩

/-- C3 (amended: the outage classification requires the first reported
error to carry code 141 or HTTP status exactly 500, not any 500-class
status): on such an error the flight orchestrator returns empty
flights, arms the web-search fallback and synthesizes the query
"flights from origin city to dest city on long date price" with
best-effort city resolution; any other provider error yields the plain
error message with the fallback left unarmed. -/
theorem C3_outage_classification
    (api : String → String → String → Int → FlightApiResult)
    (cityOf : String → Option String) (s : AgentState) (i : IntentData)
    (errors : List AmadeusErr) (msg : String) (e0 : AmadeusErr) (rest : List AmadeusErr)
    (hi : s.intent = some i)
    (ho : pyTruthy i.origin = true) (hd : pyTruthy i.destination = true)
    (hc : pyTruthy i.check_in = true)
    (hapi : api (i.origin.getD "") (i.destination.getD "") (i.check_in.getD "") i.travelers =
      .err errors msg)
    (herr : errors = e0 :: rest) :
    ((e0.code = some 141 ∨ e0.status = some 500) →
      flightTool api cityOf s =
        { s with flights := some [], response := none, use_web_search := true,
                 search_query := some
                   ("flights from " ++ getCityName cityOf (i.origin.getD "") ++ " to " ++
                     getCityName cityOf (i.destination.getD "") ++ " on " ++
                     (match parseIsoDate (i.check_in.getD "") with
                      | some dd => formatLongDate dd
                      | none => i.check_in.getD "") ++ " price") }) ∧
    (¬ (e0.code = some 141 ∨ e0.status = some 500) →
      flightTool api cityOf s =
        { s with flights := some [],
                 response := some ("Flight search error: " ++ msg) }) := by
  have hq : flightFallbackQuery cityOf i =
      "flights from " ++ getCityName cityOf (i.origin.getD "") ++ " to " ++
        getCityName cityOf (i.destination.getD "") ++ " on " ++
        (match parseIsoDate (i.check_in.getD "") with
         | some dd => formatLongDate dd
         | none => i.check_in.getD "") ++ " price" := by
    unfold flightFallbackQuery
    rw [if_pos ho, if_pos hd]
  constructor
  · intro hcase
    simp only [flightTool, hi, hapi, herr]
    rw [if_neg (not_not_intro ho), if_neg (not_not_intro hd), if_neg (not_not_intro hc)]
    rw [if_pos hcase, hq]
  · intro hcase
    simp only [flightTool, hi, hapi, herr]
    rw [if_neg (not_not_intro ho), if_neg (not_not_intro hd), if_neg (not_not_intro hc)]
    rw [if_neg hcase]

/-- Witness for C3 (amended): the error-code-141 provider failure on
the complete flight intent arms the fallback with the synthesized
query. -/
theorem C3_outage_classification_witness :
    flightTool apiOutage cityTable exStateFlight =
      { exStateFlight with
          flights := some [], response := none, use_web_search := true,
          search_query := some "flights from Mumbai to Delhi on March 05, 2026 price" } := by
  have h := (C3_outage_classification apiOutage cityTable exStateFlight exFlightIntent
    [{ code := some 141, status := none }] "[500] System error has occurred"
    { code := some 141, status := none } [] rfl (by decide) (by decide) (by decide) rfl rfl).1
    (Or.inl rfl)
  rw [h]
  decide

/-- Counterexample to C3 as stated: a provider error whose first entry
carries the 500-class status 503 (and a non-outage code) does not arm
the fallback; the orchestrator returns the plain error message
instead. -/
theorem C3_status_class_counterexample :
    (500 ≤ 503 ∧ 503 < 600) ∧
    (flightTool api503 cityTable exStateFlight).use_web_search = false ∧
    (flightTool api503 cityTable exStateFlight).response =
      some "Flight search error: [503] Service unavailable" :=
  ⟨by decide, by decide, by decide⟩

lemma hotelLoop_nil (offersOf : String → OfferResult) (acc : List HotelEntry) :
    hotelLoop offersOf [] acc = (acc, [], 0) := rfl

lemma hotelLoop_cons_ok_break (offersOf : String → OfferResult) (hid : String)
    (rest : List String) (acc offerData : List HotelEntry)
    (hc : offersOf hid = .ok offerData) (h1 : offerData ≠ [])
    (h2 : 5 ≤ (acc ++ offerData).length) :
    hotelLoop offersOf (hid :: rest) acc = (acc ++ offerData, [hid], 0) := by
  simp only [hotelLoop, hc]
  rw [if_pos (by simp [h1]), if_pos h2]

lemma hotelLoop_cons_ok_cont (offersOf : String → OfferResult) (hid : String)
    (rest : List String) (acc offerData : List HotelEntry)
    (hc : offersOf hid = .ok offerData) (h1 : offerData ≠ [])
    (h2 : ¬ 5 ≤ (acc ++ offerData).length) :
    hotelLoop offersOf (hid :: rest) acc =
      ((hotelLoop offersOf rest (acc ++ offerData)).1,
        hid :: (hotelLoop offersOf rest (acc ++ offerData)).2.1,
        (hotelLoop offersOf rest (acc ++ offerData)).2.2) := by
  simp only [hotelLoop, hc]
  rw [if_pos (by simp [h1]), if_neg h2]

lemma hotelLoop_cons_ok_empty (offersOf : String → OfferResult) (hid : String)
    (rest : List String) (acc offerData : List HotelEntry)
    (hc : offersOf hid = .ok offerData) (h1 : offerData = []) :
    hotelLoop offersOf (hid :: rest) acc =
      ((hotelLoop offersOf rest acc).1, hid :: (hotelLoop offersOf rest acc).2.1,
        (hotelLoop offersOf rest acc).2.2) := by
  simp only [hotelLoop, hc]
  rw [if_neg (by simp [h1])]

lemma hotelLoop_cons_err (offersOf : String → OfferResult) (hid : String)
    (rest : List String) (acc : List HotelEntry) (msg : String)
    (hc : offersOf hid = .err msg) :
    hotelLoop offersOf (hid :: rest) acc =
      ((hotelLoop offersOf rest acc).1, hid :: (hotelLoop offersOf rest acc).2.1,
        (hotelLoop offersOf rest acc).2.2 + (if pyContains msg "429" then 1 else 0)) := by
  simp only [hotelLoop, hc]
  split
  · rfl
  · simp

lemma hotelLoop_queried_initial (offersOf : String → OfferResult) :
    ∀ (ids : List String) (acc : List HotelEntry),
      ∃ rest2, (hotelLoop offersOf ids acc).2.1 ++ rest2 = ids := by
  intro ids
  induction ids with
  | nil => intro acc; exact ⟨[], rfl⟩
  | cons hid rest ih =>
    intro acc
    cases hc : offersOf hid with
    | ok offerData =>
      by_cases h1 : offerData = []
      · rw [hotelLoop_cons_ok_empty offersOf hid rest acc offerData hc h1]
        obtain ⟨r2, hr2⟩ := ih acc
        exact ⟨r2, by simp [hr2]⟩
      · by_cases h2 : 5 ≤ (acc ++ offerData).length
        · rw [hotelLoop_cons_ok_break offersOf hid rest acc offerData hc h1 h2]
          exact ⟨rest, rfl⟩
        · rw [hotelLoop_cons_ok_cont offersOf hid rest acc offerData hc h1 h2]
          obtain ⟨r2, hr2⟩ := ih (acc ++ offerData)
          exact ⟨r2, by simp [hr2]⟩
    | err msg =>
      rw [hotelLoop_cons_err offersOf hid rest acc msg hc]
      obtain ⟨r2, hr2⟩ := ih acc
      exact ⟨r2, by simp [hr2]⟩

lemma hotelLoop_stop (offersOf : String → OfferResult) :
    ∀ (ids extra : List String) (acc : List HotelEntry), acc.length < 5 →
      5 ≤ (hotelLoop offersOf ids acc).1.length →
      hotelLoop offersOf (ids ++ extra) acc = hotelLoop offersOf ids acc := by
  intro ids
  induction ids with
  | nil =>
    intro extra acc h5 hlen
    rw [hotelLoop_nil] at hlen
    exact absurd (show 5 ≤ acc.length from hlen) (by omega)
  | cons hid rest ih =>
    intro extra acc h5 hlen
    cases hc : offersOf hid with
    | ok offerData =>
      by_cases h1 : offerData = []
      · rw [List.cons_append, hotelLoop_cons_ok_empty offersOf hid (rest ++ extra) acc offerData hc h1,
          hotelLoop_cons_ok_empty offersOf hid rest acc offerData hc h1]
        rw [hotelLoop_cons_ok_empty offersOf hid rest acc offerData hc h1] at hlen
        simp only at hlen
        rw [ih extra acc h5 hlen]
      · by_cases h2 : 5 ≤ (acc ++ offerData).length
        · rw [List.cons_append,
            hotelLoop_cons_ok_break offersOf hid (rest ++ extra) acc offerData hc h1 h2,
            hotelLoop_cons_ok_break offersOf hid rest acc offerData hc h1 h2]
        · have h2' : (acc ++ offerData).length < 5 := by omega
          rw [List.cons_append,
            hotelLoop_cons_ok_cont offersOf hid (rest ++ extra) acc offerData hc h1 h2,
            hotelLoop_cons_ok_cont offersOf hid rest acc offerData hc h1 h2]
          rw [hotelLoop_cons_ok_cont offersOf hid rest acc offerData hc h1 h2] at hlen
          simp only at hlen
          rw [ih extra (acc ++ offerData) h2' hlen]
    | err msg =>
      rw [List.cons_append, hotelLoop_cons_err offersOf hid (rest ++ extra) acc msg hc,
        hotelLoop_cons_err offersOf hid rest acc msg hc]
      rw [hotelLoop_cons_err offersOf hid rest acc msg hc] at hlen
      simp only at hlen
      rw [ih extra acc h5 hlen]

/-- C6: the phase-2 loop of `hotel_tool` issues offer requests only for
a prefix of the ids it is given — which `hotel_tool` builds from the
first 30 phase-1 hotels, so at most 30 requests are issued; once the
accumulated offer list reaches 5 entries the loop stops and ids
appended after the stopping point are never queried; and a per-hotel
provider error never aborts the loop: the id is recorded as queried,
the accumulator is untouched, and a 429 error adds exactly one backoff
sleep. -/
theorem C6_hotel_offer_loop (offersOf : String → OfferResult) :
    (∀ (ids : List String) (acc : List HotelEntry),
      ∃ rest2, (hotelLoop offersOf ids acc).2.1 ++ rest2 = ids) ∧
    (∀ (hs : List HotelBasic) (acc : List HotelEntry),
      ((hotelLoop offersOf ((hs.take 30).filterMap (fun h => h.hotelId)) acc).2.1).length ≤ 30) ∧
    (∀ (ids extra : List String) (acc : List HotelEntry), acc.length < 5 →
      5 ≤ (hotelLoop offersOf ids acc).1.length →
      hotelLoop offersOf (ids ++ extra) acc = hotelLoop offersOf ids acc) ∧
    (∀ (hid : String) (rest : List String) (acc : List HotelEntry) (msg : String),
      offersOf hid = .err msg →
      hotelLoop offersOf (hid :: rest) acc =
        ((hotelLoop offersOf rest acc).1, hid :: (hotelLoop offersOf rest acc).2.1,
          (hotelLoop offersOf rest acc).2.2 + (if pyContains msg "429" then 1 else 0))) := by
  refine ⟨hotelLoop_queried_initial offersOf, ?_, hotelLoop_stop offersOf,
    fun hid rest acc msg hc => hotelLoop_cons_err offersOf hid rest acc msg hc⟩
  intro hs acc
  obtain ⟨r2, hr2⟩ :=
    hotelLoop_queried_initial offersOf ((hs.take 30).filterMap (fun h => h.hotelId)) acc
  have hlen2 := congrArg List.length hr2
  rw [List.length_append] at hlen2
  have hle : ((hotelLoop offersOf ((hs.take 30).filterMap (fun h => h.hotelId)) acc).2.1).length ≤
      ((hs.take 30).filterMap (fun h => h.hotelId)).length := by omega
  refine hle.trans ((List.length_filterMap_le _ _).trans ?_)
  simp [List.length_take]

/-- Witness for C6: on the sample id list the loop queries all four
ids (one rate-limited with one sleep, one with three offers, one
empty, one reaching the quota), accumulates exactly 5 offers, and an
extra candidate appended after the stopping point changes nothing. -/
theorem C6_hotel_offer_loop_witness :
    hotelLoop exOffersOf (exIds ++ ["H4"]) [] = hotelLoop exOffersOf exIds [] ∧
    (hotelLoop exOffersOf exIds []).2.1 = ["E1", "H1", "H2", "H3"] ∧
    (hotelLoop exOffersOf exIds []).1.length = 5 ∧
    (hotelLoop exOffersOf exIds []).2.2 = 1 :=
  ⟨(C6_hotel_offer_loop exOffersOf).2.2.1 exIds ["H4"] [] (by decide) (by decide),
   by decide, by decide, by decide⟩

lemma tryBackends_skip (q : String) (b : BackendResult) (rest : List BackendResult)
    (h : backendSuccess b = false) : tryBackends q (b :: rest) = tryBackends q rest := by
  cases b with
  | fail msg => rfl
  | http status results =>
    simp only [tryBackends]
    by_cases hs : status = 200
    · subst hs
      have h2 : ¬ ((! results.isEmpty) = true) := by
        simp only [backendSuccess] at h
        simp [h]
      rw [if_pos rfl, if_neg h2]
    · rw [if_neg hs]

lemma tryBackends_first_success (q : String) :
    ∀ (pre : List BackendResult) (rs : List SearchHit) (rest : List BackendResult),
      (∀ b ∈ pre, backendSuccess b = false) → rs ≠ [] →
      tryBackends q (pre ++ .http 200 rs :: rest) = some (renderWebResults q rs) := by
  intro pre
  induction pre with
  | nil =>
    intro rs rest hpre hne
    simp only [List.nil_append, tryBackends]
    simp [hne]
  | cons b pre ih =>
    intro rs rest hpre hne
    rw [List.cons_append, tryBackends_skip q b _ (hpre b (by simp))]
    exact ih rs rest (fun x hx => hpre x (by simp [hx])) hne

/-- C7: the SearXNG cascade tries its backends in list order and stops
at the first backend returning HTTP 200 with a non-empty result list,
rendering the response from exactly the results of that backend; the
rendering uses at most the top 5 results, and every snippet it embeds
is at most 200 characters long (a truncated slice or the fixed default
text); every earlier backend failure — exception, non-200 status or
empty result list — just moves the cascade to the next backend. -/
theorem C7_fallback_cascade (q : String) (pre : List BackendResult) (rs : List SearchHit)
    (rest : List BackendResult) (hpre : ∀ b ∈ pre, backendSuccess b = false)
    (hne : rs ≠ []) :
    tryBackends q (pre ++ .http 200 rs :: rest) = some (renderWebResults q rs) ∧
    renderWebResults q rs = renderWebResults q (rs.take 5) ∧
    (∀ c : String, (pySlice c 200).length ≤ 200) ∧
    ("No description available".length ≤ 200) := by
  refine ⟨tryBackends_first_success q pre rs rest hpre hne, ?_, ?_, by decide⟩
  · simp [renderWebResults, List.take_take]
  · intro c
    have he : (pySlice c 200).length = (c.toList.take 200).length := rfl
    rw [he, List.length_take]
    omega

/-- Witness for C7: after an exception, a 503 and an empty 200, the
backend holding one hit wins and a later backend is never consulted. -/
theorem C7_fallback_cascade_witness :
    tryBackends "q" (exBackendsPre ++ BackendResult.http 200 [exHit] ::
        [BackendResult.http 200 [exHit, exHit]]) =
      some (renderWebResults "q" [exHit]) :=
  (C7_fallback_cascade "q" exBackendsPre [exHit] [BackendResult.http 200 [exHit, exHit]]
    (by decide) (by decide)).1

lemma pyInt_natCast (n : ℕ) : pyInt ((n : ℕ) : ℚ) = (n : ℤ) := by
  simp [pyInt]

lemma convertPair_usd100 : convertPair "USD" 100 100 = (8300, 8300) := by
  have h1 : (100 : ℚ) * 83 = ((8300 : ℕ) : ℚ) := by norm_num
  unfold convertPair
  rw [if_neg (by decide), if_neg (by decide), if_pos rfl, h1, pyInt_natCast]
  norm_num

lemma convertPair_eur100_fst : (convertPair "EUR" 100 100).1 = 10719 := by
  have h1 : (100 : ℚ) * eurToInr = ((10719 : ℕ) : ℚ) := by
    rw [eurToInr]
    norm_num
  unfold convertPair
  rw [if_pos rfl, h1, pyInt_natCast]
  norm_num

lemma renderHotelBlock_exUsd :
    renderHotelBlock 1 exUsdHotel =
      ["1. **Dollar Inn** (ID: HUSD)",
       "   💰 Price: ₹8300 total (Base: ₹8300) | Currency: USD",
       "   🛏️  Room: Standard Room | N/A bed(s) - N/A",
       "   📅 N/A to N/A",
       "   🏷️  Payment: N/A | Cancellation: N/A",
       "   ℹ️  No cancellation info",
       ""] := by
  simp only [renderHotelBlock, exUsdHotel, exUsdOffer, Option.getD_some, Option.getD_none]
  rw [convertPair_usd100]
  decide

/-- C8: hotel prices are converted with the rate selected by the
currency field of the offer — the EUR rate for EUR, 125 for GBP, 83 for
USD, and no conversion for any other currency — so a 100 USD offer
renders via the USD rate as 8300, not via the EUR rate; flight prices
always use the fixed EUR rate and never consult the currency
field. -/
theorem C8_currency_conversion :
    (∀ t b : ℚ, convertPair "EUR" t b = (pyInt (t * eurToInr), pyInt (b * eurToInr))) ∧
    (∀ t b : ℚ, convertPair "GBP" t b = (pyInt (t * 125), pyInt (b * 125))) ∧
    (∀ t b : ℚ, convertPair "USD" t b = (pyInt (t * 83), pyInt (b * 83))) ∧
    (∀ (c : String) (t b : ℚ), c ≠ "EUR" → c ≠ "GBP" → c ≠ "USD" →
      convertPair c t b = (pyInt t, pyInt b)) ∧
    convertPair "USD" 100 100 = (8300, 8300) ∧
    (convertPair "USD" 100 100).1 ≠ (convertPair "EUR" 100 100).1 ∧
    ("   💰 Price: ₹8300 total (Base: ₹8300) | Currency: USD" ∈ renderHotelBlock 1 exUsdHotel) ∧
    (∀ f : FlightOffer, flightPriceInr f = pyInt (f.priceTotal * eurToInr)) ∧
    (∀ f g : FlightOffer, f.priceTotal = g.priceTotal → flightPriceInr f = flightPriceInr g) := by
  refine ⟨?_, ?_, ?_, ?_, convertPair_usd100, ?_, ?_, fun f => rfl, ?_⟩
  · intro t b
    simp [convertPair]
  · intro t b
    simp [convertPair]
  · intro t b
    simp [convertPair]
  · intro c t b h1 h2 h3
    simp [convertPair, h1, h2, h3]
  · rw [convertPair_usd100, convertPair_eur100_fst]
    decide
  · rw [renderHotelBlock_exUsd]
    decide
  · intro f g h
    unfold flightPriceInr
    rw [h]

/-- Witness for C8: an unknown currency is rendered without
conversion. -/
theorem C8_currency_conversion_witness :
    convertPair "INR" 100 50 = (100, 50) :=
  C8_currency_conversion.2.2.2.1 "INR" 100 50 (by decide) (by decide) (by decide)

/-- C2 (code bug): on a flight_search turn whose provider call fails
with a hard error, `flight_tool` does produce the flight-search error
text, but the post-flight route goes to `synthesis_node`, which sees no
flights and no hotels and unconditionally overwrites the response with
the literal no-results message — the synthesizer never checks whether
an earlier stage already produced a response, so the user-facing
response of the turn is the no-results text, not the flight error. -/
theorem C2_error_response_overwritten :
    (runNode errProviders .flight_tool (runNode errProviders .intent exInitFlight)).response =
      some "Flight search error: [400] Bad request" ∧
    (run errProviders 10 .intent exInitFlight).1.response =
      some "No results available for your search." ∧
    (run errProviders 10 .intent exInitFlight).2 = [.intent, .flight_tool, .synthesis] :=
  ⟨by decide, by decide, by decide⟩

end Travia
